import Mathlib

set_option maxRecDepth 8000

/-!
Formal model of the Apex Financial account-opening service
(`server/agent.py` and `server/main.py`).

Modelling conventions of this shallow embedding:
* Python strings are Lean `String`s; `str.strip`, `str.upper` and the
  regular expressions used by the code are denoted by explicit executable
  functions below.
* `date.today()` is an explicit `today : PyDate` parameter (the code reads
  the clock; the embedding passes the clock reading in).
* `random.choices(string.digits, k=n)` is modelled by an explicit digit
  source `rand : Nat → Fin 10` together with the index of the next digit
  to consume.
* `uuid.uuid4()` is modelled by an explicit `fresh : String` argument
  (its contract: an identifier not yet present in the session store).
* Python dictionaries are association lists; the JSON serialisation of
  tool results is dropped in favour of the structured value itself, and
  the JSON arguments of a tool call arrive already parsed as an
  association list of strings.
* A Python exception is `Option.none` / `Except.error` at the point where
  the exception would escape the modelled function.
-/

-- ---------------------------------------------------------------------
-- Python string primitives
-- ---------------------------------------------------------------------

def pyStripList (cs : List Char) : List Char :=
  ((cs.dropWhile Char.isWhitespace).reverse.dropWhile Char.isWhitespace).reverse

/-- Model of Python `str.strip()`. -/
def pyStrip (s : String) : String :=
  String.mk (pyStripList s.toList)

def pyUpperChar (c : Char) : Char :=
  if 'a' ≤ c ∧ c ≤ 'z' then Char.ofNat (c.toNat - 32) else c

/-- Model of Python `str.upper()` (ASCII range). -/
def pyUpper (s : String) : String :=
  String.mk (s.toList.map pyUpperChar)

/-- Model of `re.sub(r"\D", "", s)`: the digit characters of `s`, in order. -/
def digitsOf (s : String) : List Char :=
  s.toList.filter Char.isDigit

/-- Denotation of the regex `^[a-zA-Z\s'-]+$` used for names and cities. -/
def matchesNameRe (s : String) : Bool :=
  !s.toList.isEmpty &&
    s.toList.all (fun c => c.isAlpha || c.isWhitespace || c == '\x27' || c == '-')

/-- Denotation of the regex `^[^\s@]+@[^\s@]+\.[^\s@]+$`: a nonempty
local part without whitespace or `@`, a single `@`, and a domain without
whitespace or `@` containing a `.` that is neither its first nor its last
character. -/
def matchesEmailRe (s : String) : Bool :=
  let cs := s.toList
  let loc := cs.takeWhile (fun c => c ≠ '@')
  match cs.dropWhile (fun c => c ≠ '@') with
  | [] => false
  | _ :: dom =>
    !loc.isEmpty && loc.all (fun c => !c.isWhitespace) &&
    !dom.isEmpty && dom.all (fun c => !c.isWhitespace && c ≠ '@') &&
    ((dom.drop 1).dropLast.contains '.')

/-- Denotation of the regex `^\d{5}$`. -/
def matchesZipRe (s : String) : Bool :=
  s.toList.length == 5 && s.toList.all Char.isDigit

-- ---------------------------------------------------------------------
-- Dates (Python datetime/date as used by the validators)
-- ---------------------------------------------------------------------

structure PyDate where
  year : Nat
  month : Nat
  day : Nat
deriving DecidableEq, Repr

def isLeapYear (y : Nat) : Bool :=
  (y % 4 == 0 && y % 100 != 0) || y % 400 == 0

def daysInMonth (y m : Nat) : Nat :=
  if m = 2 then (if isLeapYear y then 29 else 28)
  else if m = 4 ∨ m = 6 ∨ m = 9 ∨ m = 11 then 30
  else 31

/-- Calendar validity as enforced by `datetime.date` (years 1–9999). -/
def validYMD (y m d : Nat) : Prop :=
  1 ≤ y ∧ y ≤ 9999 ∧ 1 ≤ m ∧ m ≤ 12 ∧ 1 ≤ d ∧ d ≤ daysInMonth y m

instance (y m d : Nat) : Decidable (validYMD y m d) := by
  unfold validYMD; infer_instance

def digitVal (c : Char) : Nat := c.toNat - 48

def twoDigits (a b : Char) : Nat := 10 * digitVal a + digitVal b

def fourDigits (a b c d : Char) : Nat :=
  1000 * digitVal a + 100 * digitVal b + 10 * digitVal c + digitVal d

/-- Denotation of the regex `^\d{2}/\d{2}/\d{4}$`. -/
def shapeSlash : List Char → Bool
  | [m1, m2, '/', d1, d2, '/', y1, y2, y3, y4] =>
    m1.isDigit && m2.isDigit && d1.isDigit && d2.isDigit &&
    y1.isDigit && y2.isDigit && y3.isDigit && y4.isDigit
  | _ => false

/-- Denotation of the regex `^\d{4}-\d{2}-\d{2}$`. -/
def shapeDash : List Char → Bool
  | [y1, y2, y3, y4, '-', m1, m2, '-', d1, d2] =>
    y1.isDigit && y2.isDigit && y3.isDigit && y4.isDigit &&
    m1.isDigit && m2.isDigit && d1.isDigit && d2.isDigit
  | _ => false

/-- Model of `datetime.strptime(v, "%m/%d/%Y").date()`: succeeds exactly
when the string has the `MM/DD/YYYY` shape and names a real calendar
date. -/
def parseSlashDate (s : String) : Option PyDate :=
  match s.toList with
  | [m1, m2, '/', d1, d2, '/', y1, y2, y3, y4] =>
    if m1.isDigit && m2.isDigit && d1.isDigit && d2.isDigit &&
       y1.isDigit && y2.isDigit && y3.isDigit && y4.isDigit then
      let y := fourDigits y1 y2 y3 y4
      let m := twoDigits m1 m2
      let d := twoDigits d1 d2
      if validYMD y m d then some ⟨y, m, d⟩ else none
    else none
  | _ => none

/-- Model of `datetime.strptime(v, "%Y-%m-%d").date()`. -/
def parseDashDate (s : String) : Option PyDate :=
  match s.toList with
  | [y1, y2, y3, y4, '-', m1, m2, '-', d1, d2] =>
    if y1.isDigit && y2.isDigit && y3.isDigit && y4.isDigit &&
       m1.isDigit && m2.isDigit && d1.isDigit && d2.isDigit then
      let y := fourDigits y1 y2 y3 y4
      let m := twoDigits m1 m2
      let d := twoDigits d1 d2
      if validYMD y m d then some ⟨y, m, d⟩ else none
    else none
  | _ => none

/-- The age expression
`today.year - dob.year - ((today.month, today.day) < (dob.month, dob.day))`
(Python booleans count as integers). -/
def pyAge (today dob : PyDate) : Int :=
  (today.year : Int) - (dob.year : Int) -
    (if today.month < dob.month ∨ (today.month = dob.month ∧ today.day < dob.day)
     then 1 else 0)

/-- Date parsing as the dateOfBirth validators use it: `MM/DD/YYYY` first,
then `YYYY-MM-DD`, nothing else. -/
def parseDOB (s : String) : Option PyDate :=
  if shapeSlash s.toList then parseSlashDate s
  else if shapeDash s.toList then parseDashDate s
  else none

/-- The ten field names of the account-opening form. -/
def FIELD_NAMES : List String :=
  ["firstName", "lastName", "email", "phone", "dateOfBirth",
   "ssn", "street", "city", "state", "zip"]

-- ---------------------------------------------------------------------
-- server/agent.py — validation logic
-- ---------------------------------------------------------------------

namespace Agent

/-- The fixed persona/process instructions (`SYSTEM_PROMPT` in agent.py). -/
def SYSTEM_PROMPT : String := "You are Apex, the AI banking assistant for Apex Financial. Your job is to help customers open a new checking account.\n\n\x23\x23 Your Personality\n- Professional yet friendly and warm\n- Concise — keep responses short (1-3 sentences max)\n- Use occasional emojis to feel approachable (👋, ✅, 🔒, 🎉) but don\x27t overdo it\n\n\x23\x23 Account Opening Process\nYou MUST collect the following information, ONE FIELD AT A TIME, in this order:\n1. First name\n2. Last name\n3. Email address\n4. Phone number (10 digits)\n5. Date of birth (MM/DD/YYYY format, must be 18+)\n6. Social Security Number (9 digits — reassure the user it\x27s encrypted and secure)\n7. Street address\n8. City\n9. State (2-letter US state code)\n10. ZIP code (5 digits)\n\n\x23\x23 Rules\n- Ask for ONE piece of information at a time. Never ask for multiple fields in a single message.\n- After the user provides a value, ALWAYS call the validate_field tool to check it before moving on.\n- If validation fails, tell the user the error and ask them to re-enter that field.\n- If validation succeeds, acknowledge briefly and ask for the next field.\n- After ALL 10 fields are collected and validated, present a summary of the information and ask the user to confirm it\x27s correct.\n- If the user wants to edit, ask which field they\x27d like to change and re-collect just that field.\n- Once confirmed, call show_agreement to retrieve the Terms & Conditions.\n- Present a BRIEF summary of the key terms (fees, FDIC insurance, privacy) and ask the user to type \"I agree\" to accept.\n- Only after the user explicitly agrees (says \"I agree\", \"yes I agree\", \"agree\", etc.), call create_account with all the collected data.\n- If the user declines, respect their decision and let them know they can come back anytime.\n- NEVER fabricate or assume data. ALWAYS use the values the user provides.\n- If the user asks unrelated questions, politely redirect them back to the account opening process.\n- When presenting the review summary, mask the SSN showing only the last 4 digits (e.g., ***-**-6789).\n\n\x23\x23 Important\n- You are ONLY able to help with opening checking accounts. For other products (credit cards, savings), let the user know those services are coming soon.\n- Always maintain context of what has already been collected so you don\x27t re-ask for information.\n"

/-- `VALID_STATES` from agent.py. -/
def VALID_STATES : List String :=
  ["AL","AK","AZ","AR","CA","CO","CT","DE","FL","GA",
   "HI","ID","IL","IN","IA","KS","KY","LA","ME","MD",
   "MA","MI","MN","MS","MO","MT","NE","NV","NH","NJ",
   "NM","NY","NC","ND","OH","OK","OR","PA","RI","SC",
   "SD","TN","TX","UT","VT","VA","WA","WV","WI","WY","DC"]

/-- Result dictionary of `validate_field`. -/
structure ValidationResult where
  valid : Bool
  message : String
  cleaned_value : Option String := none
deriving DecidableEq, Repr

/-- `digits.startswith("000") or digits.startswith("666") or digits.startswith("9")`. -/
def ssnBadStart : List Char → Bool
  | '0' :: '0' :: '0' :: _ => true
  | '6' :: '6' :: '6' :: _ => true
  | '9' :: _ => true
  | _ => false

/-- The age checks shared by both dateOfBirth parse branches of
`validate_field` (the code after the `if`/`elif` in agent.py). -/
def dobAgeCheck (today dob : PyDate) (v : String) : ValidationResult :=
  let age := pyAge today dob
  if age < 18 then ⟨false, "You must be at least 18 years old.", none⟩
  else if age > 120 then ⟨false, "Please enter a valid date of birth.", none⟩
  else ⟨true, "Valid", some v⟩

/-- `validate_field` from agent.py, with `date.today()` passed in as
`today`. -/
def validate_field (today : PyDate) (field_name : String) (value : String) :
    ValidationResult :=
  let v := pyStrip value
  if field_name = "firstName" ∨ field_name = "lastName" then
    let label := if field_name = "firstName" then "First name" else "Last name"
    if v = "" then ⟨false, label ++ " is required.", none⟩
    else if v.length < 2 ∨ v.length > 50 then
      ⟨false, label ++ " must be 2–50 characters.", none⟩
    else if !matchesNameRe v then
      ⟨false, label ++ " can only contain letters, spaces, hyphens, and apostrophes.", none⟩
    else ⟨true, "Valid", some v⟩
  else if field_name = "email" then
    if v = "" then ⟨false, "Email is required.", none⟩
    else if !matchesEmailRe v then
      ⟨false, "Please enter a valid email address.", none⟩
    else ⟨true, "Valid", some v⟩
  else if field_name = "phone" then
    let digits := digitsOf v
    if digits.length ≠ 10 then
      ⟨false, "Phone number must be exactly 10 digits.", none⟩
    else ⟨true, "Valid", some (String.mk digits)⟩
  else if field_name = "dateOfBirth" then
    if v = "" then ⟨false, "Date of birth is required.", none⟩
    else if shapeSlash v.toList then
      match parseSlashDate v with
      | some dob => dobAgeCheck today dob v
      | none => ⟨false, "Invalid date. Use MM/DD/YYYY format.", none⟩
    else if shapeDash v.toList then
      match parseDashDate v with
      | some dob => dobAgeCheck today dob v
      | none => ⟨false, "Invalid date. Use YYYY-MM-DD format.", none⟩
    else ⟨false, "Please enter date in MM/DD/YYYY format.", none⟩
  else if field_name = "ssn" then
    let digits := digitsOf v
    if digits.length ≠ 9 then
      ⟨false, "SSN must be exactly 9 digits.", none⟩
    else if ssnBadStart digits then
      ⟨false, "Please enter a valid SSN.", none⟩
    else ⟨true, "Valid", some (String.mk digits)⟩
  else if field_name = "street" then
    if v.length < 5 ∨ v.length > 100 then
      ⟨false, "Street address must be 5–100 characters.", none⟩
    else ⟨true, "Valid", some v⟩
  else if field_name = "city" then
    if !matchesNameRe v then
      ⟨false, "City can only contain letters and spaces.", none⟩
    else ⟨true, "Valid", some v⟩
  else if field_name = "state" then
    let v2 := pyUpper v
    if !VALID_STATES.contains v2 then
      ⟨false, "Please enter a valid 2-letter US state code (e.g., CA, NY, TX).", none⟩
    else ⟨true, "Valid", some v2⟩
  else if field_name = "zip" then
    if !matchesZipRe v then
      ⟨false, "ZIP code must be exactly 5 digits.", none⟩
    else ⟨true, "Valid", some v⟩
  else ⟨false, "Unknown field: " ++ field_name, none⟩

/-- `TERMS_AND_CONDITIONS` from agent.py. -/
def TERMS_AND_CONDITIONS : String := "\nAPEX FINANCIAL — CHECKING ACCOUNT TERMS & CONDITIONS\nEffective Date: January 1, 2026\n\n1. ACCOUNT AGREEMENT — By opening a checking account with Apex Financial, you agree to these terms.\n2. ELIGIBILITY — Must be 18+ and a legal U.S. resident.\n3. ACCOUNT OWNERSHIP — Account held in name(s) provided during application.\n4. DEPOSITS & WITHDRAWALS — Via direct deposit, mobile check deposit, wire transfer, debit card, ATM, or check.\n5. FEES — Monthly Maintenance: $0 | ATM (non-network): $0 | Overdraft: $0 | Domestic Wire: $15 | International Wire: $30\n6. ELECTRONIC COMMUNICATIONS — You consent to receive statements and notices electronically.\n7. PRIVACY — Your personal information (including SSN) is securely stored and never sold to third parties.\n8. FDIC INSURANCE — Deposits insured up to $250,000 per depositor.\n9. ACCOUNT CLOSURE — You may close at any time; Bank may close with 30 days notice.\n10. GOVERNING LAW — Governed by Delaware state and federal law.\n11. DISPUTE RESOLUTION — Binding arbitration via American Arbitration Association.\n"

end Agent

-- ---------------------------------------------------------------------
-- server/main.py — pydantic field validators (direct API path)
-- ---------------------------------------------------------------------

namespace Main

/-- `Address.validate_street` from main.py. -/
def validate_street (v : String) : Except String String :=
  let v := pyStrip v
  if v.length < 5 ∨ v.length > 100 then
    Except.error "Street address must be 5–100 characters."
  else Except.ok v

/-- `Address.validate_city` from main.py. -/
def validate_city (v : String) : Except String String :=
  let v := pyStrip v
  if !matchesNameRe v then
    Except.error "City can only contain letters and spaces."
  else Except.ok v

/-- The `valid_states` set duplicated inside `Address.validate_state`. -/
def valid_states : List String :=
  ["AL","AK","AZ","AR","CA","CO","CT","DE","FL","GA",
   "HI","ID","IL","IN","IA","KS","KY","LA","ME","MD",
   "MA","MI","MN","MS","MO","MT","NE","NV","NH","NJ",
   "NM","NY","NC","ND","OH","OK","OR","PA","RI","SC",
   "SD","TN","TX","UT","VT","VA","WA","WV","WI","WY","DC"]

/-- `Address.validate_state` from main.py. -/
def validate_state (v : String) : Except String String :=
  let v2 := pyUpper (pyStrip v)
  if !valid_states.contains v2 then
    Except.error "Please provide a valid 2-letter US state code."
  else Except.ok v2

/-- `Address.validate_zip` from main.py. -/
def validate_zip (v : String) : Except String String :=
  let v := pyStrip v
  if !matchesZipRe v then
    Except.error "ZIP code must be exactly 5 digits."
  else Except.ok v

/-- `AccountRequest.validate_first_name` from main.py. -/
def validate_first_name (v : String) : Except String String :=
  let v := pyStrip v
  if v.length < 2 ∨ v.length > 50 then
    Except.error "First name must be 2–50 characters."
  else if !matchesNameRe v then
    Except.error "First name can only contain letters, spaces, hyphens, and apostrophes."
  else Except.ok v

/-- `AccountRequest.validate_last_name` from main.py. -/
def validate_last_name (v : String) : Except String String :=
  let v := pyStrip v
  if v.length < 2 ∨ v.length > 50 then
    Except.error "Last name must be 2–50 characters."
  else if !matchesNameRe v then
    Except.error "Last name can only contain letters, spaces, hyphens, and apostrophes."
  else Except.ok v

/-- `AccountRequest.validate_email` from main.py. -/
def validate_email (v : String) : Except String String :=
  let v := pyStrip v
  if !matchesEmailRe v then
    Except.error "Please provide a valid email address."
  else Except.ok v

/-- `AccountRequest.validate_phone` from main.py. -/
def validate_phone (v : String) : Except String String :=
  let digits := digitsOf v
  if digits.length ≠ 10 then
    Except.error "Phone number must be exactly 10 digits."
  else Except.ok (String.mk digits)

/-- The age checks of `AccountRequest.validate_dob` (the code after the
parse branches in main.py). -/
def dobAgeCheck (today dob : PyDate) (v : String) : Except String String :=
  let age := pyAge today dob
  if age < 18 then
    Except.error "You must be at least 18 years old to open an account."
  else if age > 120 then
    Except.error "Please provide a valid date of birth."
  else Except.ok v

/-- `AccountRequest.validate_dob` from main.py, with `date.today()`
passed in as `today`. -/
def validate_dob (today : PyDate) (v : String) : Except String String :=
  let v := pyStrip v
  if shapeSlash v.toList then
    match parseSlashDate v with
    | some dob => dobAgeCheck today dob v
    | none => Except.error "Please provide a valid date (MM/DD/YYYY)."
  else if shapeDash v.toList then
    match parseDashDate v with
    | some dob => dobAgeCheck today dob v
    | none => Except.error "Please provide a valid date (YYYY-MM-DD)."
  else Except.error "Date of birth must be in MM/DD/YYYY or YYYY-MM-DD format."

/-- `AccountRequest.validate_ssn` from main.py. -/
def validate_ssn (v : String) : Except String String :=
  let digits := digitsOf v
  if digits.length ≠ 9 then
    Except.error "SSN must be exactly 9 digits."
  else if Agent.ssnBadStart digits then
    Except.error "Please provide a valid SSN."
  else Except.ok (String.mk digits)

/-- `AccountRequest.validate_agreed` from main.py. -/
def validate_agreed (v : Bool) : Except String Bool :=
  if !v then
    Except.error "You must agree to the Terms & Conditions to open an account."
  else Except.ok v

/-- `Address` model from main.py. -/
structure Address where
  street : String
  city : String
  state : String
  zip : String
deriving DecidableEq, Repr

/-- `AccountRequest` model from main.py. -/
structure AccountRequest where
  firstName : String
  lastName : String
  email : String
  phone : String
  dateOfBirth : String
  ssn : String
  address : Address
  agreedToTerms : Bool
deriving DecidableEq, Repr

/-- `AccountResponse` model from main.py. -/
structure AccountResponse where
  accountNumber : String
  routingNumber : String
  accountType : String
  message : String
  customerName : String
deriving DecidableEq, Repr

/-- Pydantic validation of an `AccountRequest`: each field validator runs
in field-declaration order (firstName, lastName, email, phone,
dateOfBirth, ssn, the nested address in its own declaration order, then
agreedToTerms) and the first failure is reported together with the name
of the offending field; on success every field is replaced by its cleaned
value. -/
def validateAccountRequest (today : PyDate) (r : AccountRequest) :
    Except (String × String) AccountRequest :=
  match validate_first_name r.firstName with
  | Except.error m => Except.error ("firstName", m)
  | Except.ok fn =>
  match validate_last_name r.lastName with
  | Except.error m => Except.error ("lastName", m)
  | Except.ok ln =>
  match validate_email r.email with
  | Except.error m => Except.error ("email", m)
  | Except.ok em =>
  match validate_phone r.phone with
  | Except.error m => Except.error ("phone", m)
  | Except.ok ph =>
  match validate_dob today r.dateOfBirth with
  | Except.error m => Except.error ("dateOfBirth", m)
  | Except.ok dob =>
  match validate_ssn r.ssn with
  | Except.error m => Except.error ("ssn", m)
  | Except.ok sn =>
  match validate_street r.address.street with
  | Except.error m => Except.error ("street", m)
  | Except.ok st =>
  match validate_city r.address.city with
  | Except.error m => Except.error ("city", m)
  | Except.ok ci =>
  match validate_state r.address.state with
  | Except.error m => Except.error ("state", m)
  | Except.ok sta =>
  match validate_zip r.address.zip with
  | Except.error m => Except.error ("zip", m)
  | Except.ok zi =>
  match validate_agreed r.agreedToTerms with
  | Except.error m => Except.error ("agreedToTerms", m)
  | Except.ok ag =>
    Except.ok ⟨fn, ln, em, ph, dob, sn, ⟨st, ci, sta, zi⟩, ag⟩

end Main

-- ---------------------------------------------------------------------
-- server/agent.py — tools, session store, agentic loop
-- ---------------------------------------------------------------------

namespace Agent

/-- One tool invocation as delivered by the reasoning engine
(`tc.id`, `tc.function.name`, `tc.function.arguments` already parsed). -/
structure ToolCall where
  id : String
  name : String
  arguments : List (String × String)
deriving DecidableEq, Repr

/-- Structured value of the JSON string returned by `execute_tool`. -/
inductive ToolResult where
  | validation (result : ValidationResult)
  | agreement (terms instruction : String)
  | account (success : Bool)
      (accountNumber routingNumber accountType customerName message : String)
  | unknown (error : String)
deriving DecidableEq, Repr

/-- One transcript turn (`{"role": ..., ...}` dictionaries in agent.py). -/
inductive Turn where
  | system (content : String)
  | user (content : String)
  | assistant (content : Option String) (tool_calls : List ToolCall)
  | tool (tool_call_id : String) (content : ToolResult)
deriving DecidableEq, Repr

/-- Dictionary lookup on an association list (`d[k]` / `d.get(k)`). -/
def alookup : List (String × String) → String → Option String
  | [], _ => none
  | (k, v) :: rest, key => if k = key then some v else alookup rest key

/-- Model of `"".join(random.choices(string.digits, k=k))` reading `k`
digits from the source starting at index `start`. -/
def randDigits (rand : Nat → Fin 10) (start k : Nat) : String :=
  String.mk ((List.range k).map (fun i => Char.ofNat (48 + (rand (start + i)).val)))

/-- `show_agreement` from agent.py. -/
def show_agreement : ToolResult :=
  ToolResult.agreement (pyStrip TERMS_AND_CONDITIONS)
    "Present these terms to the user and ask them to type \x27I agree\x27 to accept."

/-- `create_account` (the dialogue-path tool handler) from agent.py: no
validation, fresh random account and routing numbers, and a customer name
built from the `firstName`/`lastName` entries with `""` defaults. -/
def create_account (rand : Nat → Fin 10) (k : Nat)
    (data : List (String × String)) : ToolResult :=
  ToolResult.account true (randDigits rand k 10) (randDigits rand (k + 10) 9)
    "Checking"
    (((alookup data "firstName").getD "") ++ " " ++ ((alookup data "lastName").getD ""))
    "Account created successfully!"

/-- `execute_tool` from agent.py.  `none` models the `KeyError` escaping
when `validate_field` is invoked without its required argument keys. -/
def execute_tool (today : PyDate) (rand : Nat → Fin 10) (k : Nat)
    (tool_name : String) (arguments : List (String × String)) : Option ToolResult :=
  if tool_name = "validate_field" then
    match alookup arguments "field_name", alookup arguments "value" with
    | some f, some v => some (ToolResult.validation (validate_field today f v))
    | _, _ => none
  else if tool_name = "show_agreement" then some show_agreement
  else if tool_name = "create_account" then some (create_account rand k arguments)
  else some (ToolResult.unknown ("Unknown tool: " ++ tool_name))

/-- The `metadata` dictionary accumulated by `process_message`. -/
structure Metadata where
  accountCreated : Option Bool := none
  accountNumber : Option String := none
  routingNumber : Option String := none
  accountType : Option String := none
deriving DecidableEq, Repr

/-- The metadata capture in `process_message`: after a `create_account`
call whose result reports success, record the account data. -/
def mdUpdate (name : String) (res : ToolResult) (md : Metadata) : Metadata :=
  if name = "create_account" then
    match res with
    | ToolResult.account true an rn ty _ _ =>
      { md with accountCreated := some true, accountNumber := some an,
                routingNumber := some rn, accountType := some ty }
    | _ => md
  else md

/-- Random-digit consumption: a `create_account` call draws 10 + 9 digits. -/
def kNext (name : String) (k : Nat) : Nat :=
  if name = "create_account" then k + 19 else k

/-- Result of executing one response's tool calls: the tool-result turns
appended, the metadata, the next random index, and whether every call
completed (`ok = false` models the Python exception escaping mid-list). -/
structure ToolRunOut where
  turns : List Turn
  metadata : Metadata
  rk : Nat
  ok : Bool
deriving DecidableEq, Repr

/-- The `for tool_call in assistant_message.tool_calls` body of
`process_message`: execute each call in order, appending its result turn
before starting the next. -/
def runToolCalls (today : PyDate) (rand : Nat → Fin 10) :
    List ToolCall → Metadata → Nat → ToolRunOut
  | [], md, k => ⟨[], md, k, true⟩
  | tc :: rest, md, k =>
    match execute_tool today rand k tc.name tc.arguments with
    | none => ⟨[], md, k, false⟩
    | some res =>
      let out := runToolCalls today rand rest (mdUpdate tc.name res md) (kNext tc.name k)
      ⟨Turn.tool tc.id res :: out.turns, out.metadata, out.rk, out.ok⟩

/-- One scripted answer of the reasoning engine: a transport/API failure,
or `choices[0].message` with its content and tool calls. -/
inductive EngineStep where
  | failure
  | reply (content : Option String) (tool_calls : List ToolCall)
deriving DecidableEq, Repr

inductive LoopOutcome where
  | reply (text : String)
  | failure
deriving DecidableEq, Repr

/-- The fixed fallback message of `process_message`. -/
def FALLBACK : String :=
  "I\x27m sorry, I encountered an issue processing your request. Please try again."

structure LoopOut where
  history : List Turn
  metadata : Metadata
  outcome : LoopOutcome
deriving DecidableEq, Repr

/-- The agentic loop of `process_message`: at most `fuel` engine calls
(10 in the code), consuming one scripted `EngineStep` per call; when the
fuel runs out the fixed fallback turn is appended.  `outcome = failure`
models the exception propagating to the caller, with `history` the
transcript as mutated up to that point. -/
def agentLoop (today : PyDate) (rand : Nat → Fin 10) :
    Nat → List EngineStep → List Turn → Metadata → Nat → LoopOut
  | 0, _, history, md, _ =>
    ⟨history ++ [Turn.assistant (some FALLBACK) []], md, LoopOutcome.reply FALLBACK⟩
  | fuel + 1, engine, history, md, k =>
    match engine with
    | [] => ⟨history, md, LoopOutcome.failure⟩
    | EngineStep.failure :: _ => ⟨history, md, LoopOutcome.failure⟩
    | EngineStep.reply content tcs :: rest =>
      if tcs.isEmpty then
        ⟨history ++ [Turn.assistant (some (content.getD "")) []], md,
         LoopOutcome.reply (content.getD "")⟩
      else
        let run := runToolCalls today rand tcs md k
        if run.ok then
          agentLoop today rand fuel rest
            (history ++ Turn.assistant content tcs :: run.turns) run.metadata run.rk
        else
          ⟨history ++ Turn.assistant content tcs :: run.turns, run.metadata,
           LoopOutcome.failure⟩

/-- The in-memory `sessions` dictionary: session id → transcript. -/
abbrev SessionStore := List (String × List Turn)

def lookupStore : SessionStore → String → Option (List Turn)
  | [], _ => none
  | (k, v) :: rest, key => if k = key then some v else lookupStore rest key

/-- Dictionary assignment `sessions[sid] = v`. -/
def insertStore : SessionStore → String → List Turn → SessionStore
  | [], key, v => [(key, v)]
  | (k, w) :: rest, key, v =>
    if k = key then (key, v) :: rest else (k, w) :: insertStore rest key v

/-- `get_or_create_session` from agent.py, with `str(uuid.uuid4())`
passed in as `fresh`.  A falsy (`none`/`""`) or unrecognized id triggers
creation; the stored id is the caller's id when that is truthy, otherwise
the fresh uuid. -/
def get_or_create_session (fresh : String) (session_id : Option String)
    (sessions : SessionStore) : String × SessionStore :=
  let s := session_id.getD ""
  if s = "" ∨ lookupStore sessions s = none then
    let sid := if s = "" then fresh else s
    (sid, insertStore sessions sid [Turn.system SYSTEM_PROMPT])
  else (s, sessions)

/-- The `{session_id, reply, metadata}` dictionary returned by
`process_message`. -/
structure ChatResult where
  sessionId : String
  reply : String
  metadata : Metadata
deriving DecidableEq, Repr

/-- `process_message` from agent.py over a scripted engine.  Returns the
updated session store and the result; `none` models the exception
propagating to the HTTP layer (the store still reflects every turn
appended before the failure, because `history` aliases the stored list). -/
def process_message (today : PyDate) (rand : Nat → Fin 10) (fresh : String)
    (engine : List EngineStep) (session_id : Option String)
    (user_message : String) (store : SessionStore) :
    SessionStore × Option ChatResult :=
  let resolved := get_or_create_session fresh session_id store
  let history0 := (lookupStore resolved.2 resolved.1).getD []
  let history1 := history0 ++ [Turn.user user_message]
  let run := agentLoop today rand 10 engine history1 {} 0
  let store2 := insertStore resolved.2 resolved.1 run.history
  match run.outcome with
  | LoopOutcome.reply r => (store2, some ⟨resolved.1, r, run.metadata⟩)
  | LoopOutcome.failure => (store2, none)

end Agent

namespace Main

/-- The `/api/accounts` endpoint (`create_account` in main.py): FastAPI
validates the request model first, then the handler draws the random
account and routing numbers and answers. -/
def create_account (today : PyDate) (rand : Nat → Fin 10)
    (request : AccountRequest) : Except (String × String) AccountResponse :=
  match validateAccountRequest today request with
  | Except.error e => Except.error e
  | Except.ok req =>
    Except.ok ⟨Agent.randDigits rand 0 10, Agent.randDigits rand 10 9,
      "Checking", "Account created successfully!",
      req.firstName ++ " " ++ req.lastName⟩

/-- The request's validators in pydantic's declaration order, keyed by
field name (tabulation of main.py's `field_validator`s, used to state
which field fails first). -/
def fieldCheck (today : PyDate) (f : String) (r : AccountRequest) :
    Except String String :=
  match f with
  | "firstName" => validate_first_name r.firstName
  | "lastName" => validate_last_name r.lastName
  | "email" => validate_email r.email
  | "phone" => validate_phone r.phone
  | "dateOfBirth" => validate_dob today r.dateOfBirth
  | "ssn" => validate_ssn r.ssn
  | "street" => validate_street r.address.street
  | "city" => validate_city r.address.city
  | "state" => validate_state r.address.state
  | "zip" => validate_zip r.address.zip
  | "agreedToTerms" =>
    match validate_agreed r.agreedToTerms with
    | Except.error m => Except.error m
    | Except.ok _ => Except.ok "True"
  | _ => Except.error "unknown field"

/-- Declaration order of the validated fields of `AccountRequest`. -/
def FIELD_ORDER : List String :=
  ["firstName", "lastName", "email", "phone", "dateOfBirth",
   "ssn", "street", "city", "state", "zip", "agreedToTerms"]

def firstOffendingAux (today : PyDate) (r : AccountRequest) :
    List String → Option (String × String)
  | [] => none
  | f :: rest =>
    match fieldCheck today f r with
    | Except.error m => some (f, m)
    | Except.ok _ => firstOffendingAux today r rest

/-- The first field of the request, in declaration order, whose validator
rejects, together with that validator's message. -/
def firstOffending (today : PyDate) (r : AccountRequest) :
    Option (String × String) :=
  firstOffendingAux today r FIELD_ORDER

end Main

-- ---------------------------------------------------------------------
-- Helper lemmas: session store and loop unfolding
-- ---------------------------------------------------------------------

lemma lookupStore_insert_self (st : Agent.SessionStore) (key : String)
    (v : List Agent.Turn) :
    Agent.lookupStore (Agent.insertStore st key v) key = some v := by
  induction st with
  | nil => simp [Agent.insertStore, Agent.lookupStore]
  | cons hd tl ih =>
    obtain ⟨k2, w⟩ := hd
    by_cases h : k2 = key
    · simp [Agent.insertStore, Agent.lookupStore, h]
    · simp [Agent.insertStore, Agent.lookupStore, h, ih]

lemma gocs_none (fresh : String) (store : Agent.SessionStore) :
    Agent.get_or_create_session fresh none store
      = (fresh, Agent.insertStore store fresh [Agent.Turn.system Agent.SYSTEM_PROMPT]) := by
  simp [Agent.get_or_create_session]

lemma gocs_some_empty (fresh : String) (store : Agent.SessionStore) :
    Agent.get_or_create_session fresh (some "") store
      = (fresh, Agent.insertStore store fresh [Agent.Turn.system Agent.SYSTEM_PROMPT]) := by
  simp [Agent.get_or_create_session]

lemma gocs_unrecognized (fresh s : String) (store : Agent.SessionStore)
    (h1 : s ≠ "") (h2 : Agent.lookupStore store s = none) :
    Agent.get_or_create_session fresh (some s) store
      = (s, Agent.insertStore store s [Agent.Turn.system Agent.SYSTEM_PROMPT]) := by
  simp [Agent.get_or_create_session, h1, h2]

lemma gocs_known (fresh s : String) (store : Agent.SessionStore)
    (t : List Agent.Turn) (h1 : s ≠ "") (h2 : Agent.lookupStore store s = some t) :
    Agent.get_or_create_session fresh (some s) store = (s, store) := by
  simp [Agent.get_or_create_session, h1, h2]

lemma agentLoop_zero (today : PyDate) (rand : Nat → Fin 10)
    (es : List Agent.EngineStep) (h : List Agent.Turn) (md : Agent.Metadata) (k : Nat) :
    Agent.agentLoop today rand 0 es h md k
      = ⟨h ++ [Agent.Turn.assistant (some Agent.FALLBACK) []], md,
         Agent.LoopOutcome.reply Agent.FALLBACK⟩ := rfl

lemma agentLoop_nil (today : PyDate) (rand : Nat → Fin 10) (f : Nat)
    (h : List Agent.Turn) (md : Agent.Metadata) (k : Nat) :
    Agent.agentLoop today rand (f + 1) [] h md k
      = ⟨h, md, Agent.LoopOutcome.failure⟩ := rfl

lemma agentLoop_failure_head (today : PyDate) (rand : Nat → Fin 10) (f : Nat)
    (es : List Agent.EngineStep) (h : List Agent.Turn) (md : Agent.Metadata) (k : Nat) :
    Agent.agentLoop today rand (f + 1) (Agent.EngineStep.failure :: es) h md k
      = ⟨h, md, Agent.LoopOutcome.failure⟩ := rfl

lemma agentLoop_reply_final (today : PyDate) (rand : Nat → Fin 10) (f : Nat)
    (c : Option String) (rest : List Agent.EngineStep) (h : List Agent.Turn)
    (md : Agent.Metadata) (k : Nat) :
    Agent.agentLoop today rand (f + 1) (Agent.EngineStep.reply c [] :: rest) h md k
      = ⟨h ++ [Agent.Turn.assistant (some (c.getD "")) []], md,
         Agent.LoopOutcome.reply (c.getD "")⟩ := rfl

lemma agentLoop_reply_tools (today : PyDate) (rand : Nat → Fin 10) (f : Nat)
    (c : Option String) (tc : Agent.ToolCall) (tl : List Agent.ToolCall)
    (rest : List Agent.EngineStep) (h : List Agent.Turn) (md : Agent.Metadata) (k : Nat) :
    Agent.agentLoop today rand (f + 1) (Agent.EngineStep.reply c (tc :: tl) :: rest) h md k
      = (let run := Agent.runToolCalls today rand (tc :: tl) md k
         if run.ok then
           Agent.agentLoop today rand f rest
             (h ++ Agent.Turn.assistant c (tc :: tl) :: run.turns) run.metadata run.rk
         else
           ⟨h ++ Agent.Turn.assistant c (tc :: tl) :: run.turns, run.metadata,
            Agent.LoopOutcome.failure⟩) := rfl

lemma agentLoop_ten_failure (today : PyDate) (rand : Nat → Fin 10)
    (es : List Agent.EngineStep) (h : List Agent.Turn) (md : Agent.Metadata) (k : Nat) :
    Agent.agentLoop today rand 10 (Agent.EngineStep.failure :: es) h md k
      = ⟨h, md, Agent.LoopOutcome.failure⟩ := rfl

-- Concrete values shared by witnesses and counterexamples -------------

/-- A fixed clock reading (the spec's fixed "today" 2025-06-01). -/
def d0 : PyDate := ⟨2025, 6, 1⟩

/-- A concrete digit source. -/
def rand0 : Nat → Fin 10 := fun _ => 3

/-- A store holding one session "s" seeded with the system turn. -/
def storeS : Agent.SessionStore :=
  [("s", [Agent.Turn.system Agent.SYSTEM_PROMPT])]

-- ---------------------------------------------------------------------
-- C1 — get_or_create_session
-- ---------------------------------------------------------------------

/-- C1 counterexample: a caller-supplied id absent from the store is NOT
replaced by a fresh minted identifier — `get_or_create_session` adopts
the caller's id "ghost" verbatim (the claim says a new unique identifier
is minted in this case). -/
theorem get_or_create_session_reuses_unrecognized_id :
    (Agent.get_or_create_session "3f2e-fresh-uuid" (some "ghost") []).1 = "ghost"
      ∧ "ghost" ≠ "3f2e-fresh-uuid" := by
  constructor
  · rfl
  · decide

/-- C1 (amended): an absent (`none`/`""`) session id mints the fresh
identifier and an unrecognized non-empty id is adopted as given; in both
creation cases the stored transcript is seeded with exactly one system
turn holding the fixed persona instructions; a known id leaves the store
unchanged; and two successive calls omitting the session id return
distinct identifiers whenever each fresh uuid is new to the store it is
minted into. -/
theorem get_or_create_session_behavior
    (store : Agent.SessionStore) (fresh s : String) :
    (Agent.get_or_create_session fresh none store
      = (fresh, Agent.insertStore store fresh [Agent.Turn.system Agent.SYSTEM_PROMPT]))
  ∧ (Agent.get_or_create_session fresh (some "") store
      = (fresh, Agent.insertStore store fresh [Agent.Turn.system Agent.SYSTEM_PROMPT]))
  ∧ (s ≠ "" → Agent.lookupStore store s = none →
      Agent.get_or_create_session fresh (some s) store
        = (s, Agent.insertStore store s [Agent.Turn.system Agent.SYSTEM_PROMPT]))
  ∧ (∀ t, s ≠ "" → Agent.lookupStore store s = some t →
      Agent.get_or_create_session fresh (some s) store = (s, store))
  ∧ (∀ fresh2,
      Agent.lookupStore (Agent.get_or_create_session fresh none store).2 fresh2 = none →
      (Agent.get_or_create_session fresh2 none
          (Agent.get_or_create_session fresh none store).2).1 = fresh2
        ∧ fresh2 ≠ (Agent.get_or_create_session fresh none store).1) := by
  refine ⟨gocs_none fresh store, gocs_some_empty fresh store,
    fun h1 h2 => gocs_unrecognized fresh s store h1 h2,
    fun t h1 h2 => gocs_known fresh s store t h1 h2, ?_⟩
  intro fresh2 hf
  rw [gocs_none fresh store] at hf ⊢
  constructor
  · rw [gocs_none fresh2]
  · intro hcontra
    simp only at hcontra
    rw [hcontra, lookupStore_insert_self] at hf
    exact Option.noConfusion hf

/-- C1 witness: the amended theorem applied to a concrete store — a known
id is returned unchanged together with its stored transcript. -/
theorem get_or_create_session_behavior_witness :
    Agent.get_or_create_session "u1" (some "s") storeS = ("s", storeS) :=
  (get_or_create_session_behavior storeS "u1" "s").2.2.2.1
    [Agent.Turn.system Agent.SYSTEM_PROMPT] (by decide) rfl

-- ---------------------------------------------------------------------
-- C6 — engine failure semantics
-- ---------------------------------------------------------------------

/-- C6 counterexample: the transcript is NOT unchanged by a failed call —
the user turn appended before the first engine call survives the
transport failure, so the stored transcript grew from one turn to two. -/
theorem engine_failure_transcript_changed :
    Agent.lookupStore
        (Agent.process_message d0 rand0 "u" [Agent.EngineStep.failure]
          (some "s") "hi" storeS).1 "s"
      = some [Agent.Turn.system Agent.SYSTEM_PROMPT, Agent.Turn.user "hi"]
    ∧ [Agent.Turn.system Agent.SYSTEM_PROMPT, Agent.Turn.user "hi"]
        ≠ [Agent.Turn.system Agent.SYSTEM_PROMPT] := by
  constructor
  · rfl
  · simp

/-- C6 (amended): a transport/API failure of the reasoning engine is not
retried (the result ignores every scripted step after the failure) and
propagates to the caller as a failure (`none`); no assistant or tool turn
from the failed engine call is appended — but the transcript is not
unchanged: it now ends with the user turn appended before the engine was
invoked.  The second conjunct states the same for a failure in any later
iteration: the failing iteration appends nothing. -/
theorem engine_failure_propagation
    (today : PyDate) (rand : Nat → Fin 10) (fresh : String)
    (rest es : List Agent.EngineStep) (store : Agent.SessionStore)
    (sid msg : String) (t : List Agent.Turn) (f : Nat) (h : List Agent.Turn)
    (md : Agent.Metadata) (k : Nat) :
    (sid ≠ "" → Agent.lookupStore store sid = some t →
      Agent.process_message today rand fresh (Agent.EngineStep.failure :: rest)
          (some sid) msg store
        = (Agent.insertStore store sid (t ++ [Agent.Turn.user msg]), none))
  ∧ Agent.agentLoop today rand (f + 1) (Agent.EngineStep.failure :: es) h md k
      = ⟨h, md, Agent.LoopOutcome.failure⟩ := by
  constructor
  · intro h1 h2
    simp only [Agent.process_message, gocs_known fresh sid store t h1 h2, h2,
      Option.getD_some, agentLoop_ten_failure]
  · exact agentLoop_failure_head today rand f es h md k

/-- C6 witness: the amended theorem at a concrete session — the failed
call returns `none` and stores exactly the old transcript plus the user
turn. -/
theorem engine_failure_propagation_witness :
    Agent.process_message d0 rand0 "u" [Agent.EngineStep.failure] (some "s") "hi" storeS
      = (Agent.insertStore storeS "s"
          ([Agent.Turn.system Agent.SYSTEM_PROMPT] ++ [Agent.Turn.user "hi"]), none) :=
  (engine_failure_propagation d0 rand0 "u" [] [] storeS "s" "hi"
      [Agent.Turn.system Agent.SYSTEM_PROMPT] 0 [] {} 0).1 (by decide) rfl

-- ---------------------------------------------------------------------
-- C10 — the dialogue-path create_account tool handler
-- ---------------------------------------------------------------------

lemma digit_char_ofNat : ∀ v : Fin 10, (Char.ofNat (48 + v.val)).isDigit = true := by
  decide

lemma randDigits_length (rand : Nat → Fin 10) (start k : Nat) :
    (Agent.randDigits rand start k).length = k := by
  simp [Agent.randDigits, String.length]

lemma randDigits_all_digits (rand : Nat → Fin 10) (start k : Nat) :
    (Agent.randDigits rand start k).toList.all Char.isDigit = true := by
  rw [List.all_eq_true]
  intro x hx
  simp only [Agent.randDigits, String.toList, List.mem_map, List.mem_range] at hx
  obtain ⟨i, _, hxi⟩ := hx
  rw [← hxi]
  exact digit_char_ofNat (rand (start + i))

/-- C10: the dialogue-path `create_account` tool handler performs no
validation — for every argument dictionary (including one missing any or
all fields) it returns success with a 10-digit account number, a 9-digit
routing number, account type "Checking" and a customer name built from
the `firstName`/`lastName` entries with `""` defaults; and executing such
an invocation always sets `accountCreated` metadata and appends the
result turn. -/
theorem create_account_tool_no_validation
    (today : PyDate) (rand : Nat → Fin 10) (k : Nat)
    (data : List (String × String)) (md : Agent.Metadata) (tcid : String) :
    Agent.create_account rand k data
      = Agent.ToolResult.account true (Agent.randDigits rand k 10)
          (Agent.randDigits rand (k + 10) 9) "Checking"
          (((Agent.alookup data "firstName").getD "") ++ " "
            ++ ((Agent.alookup data "lastName").getD ""))
          "Account created successfully!"
  ∧ (Agent.randDigits rand k 10).length = 10
  ∧ (Agent.randDigits rand k 10).toList.all Char.isDigit = true
  ∧ (Agent.randDigits rand (k + 10) 9).length = 9
  ∧ (Agent.randDigits rand (k + 10) 9).toList.all Char.isDigit = true
  ∧ (Agent.runToolCalls today rand [⟨tcid, "create_account", data⟩] md k).metadata.accountCreated
      = some true
  ∧ (Agent.runToolCalls today rand [⟨tcid, "create_account", data⟩] md k).turns
      = [Agent.Turn.tool tcid (Agent.create_account rand k data)] :=
  ⟨rfl, randDigits_length rand k 10, randDigits_all_digits rand k 10,
   randDigits_length rand (k + 10) 9, randDigits_all_digits rand (k + 10) 9,
   rfl, rfl⟩

-- ---------------------------------------------------------------------
-- C7 — strict sequential tool execution
-- ---------------------------------------------------------------------

/-- A tool invocation whose arguments satisfy the tool catalog: a
`validate_field` call must carry its two required argument keys
(otherwise the Python handler raises `KeyError`). -/
def wellFormedCall (tc : Agent.ToolCall) : Prop :=
  tc.name = "validate_field" →
    (Agent.alookup tc.arguments "field_name").isSome
      ∧ (Agent.alookup tc.arguments "value").isSome

instance (tc : Agent.ToolCall) : Decidable (wellFormedCall tc) := by
  unfold wellFormedCall; infer_instance

lemma execute_tool_isSome (today : PyDate) (rand : Nat → Fin 10) (k : Nat)
    (tc : Agent.ToolCall) (h : wellFormedCall tc) :
    (Agent.execute_tool today rand k tc.name tc.arguments).isSome := by
  unfold Agent.execute_tool
  by_cases h1 : tc.name = "validate_field"
  · obtain ⟨hf, hv⟩ := h h1
    obtain ⟨f, hf2⟩ := Option.isSome_iff_exists.mp hf
    obtain ⟨v, hv2⟩ := Option.isSome_iff_exists.mp hv
    simp [h1, hf2, hv2]
  · by_cases h2 : tc.name = "show_agreement" <;>
      by_cases h3 : tc.name = "create_account" <;>
        simp [h1, h2, h3]

lemma runToolCalls_cons_some (today : PyDate) (rand : Nat → Fin 10)
    (tc : Agent.ToolCall) (tl : List Agent.ToolCall) (md : Agent.Metadata)
    (k : Nat) (res : Agent.ToolResult)
    (hres : Agent.execute_tool today rand k tc.name tc.arguments = some res) :
    Agent.runToolCalls today rand (tc :: tl) md k
      = (let out := Agent.runToolCalls today rand tl
            (Agent.mdUpdate tc.name res md) (Agent.kNext tc.name k)
         ⟨Agent.Turn.tool tc.id res :: out.turns, out.metadata, out.rk, out.ok⟩) := by
  simp only [Agent.runToolCalls, hres]

/-- Executing a list of well-formed tool calls completes, produces one
tool-result turn per call, and the i-th result turn carries the i-th
call's invocation id. -/
lemma runToolCalls_wellFormed (today : PyDate) (rand : Nat → Fin 10) :
    ∀ (tcs : List Agent.ToolCall) (md : Agent.Metadata) (k : Nat),
      (∀ tc ∈ tcs, wellFormedCall tc) →
      (Agent.runToolCalls today rand tcs md k).ok = true
      ∧ (Agent.runToolCalls today rand tcs md k).turns.length = tcs.length
      ∧ ∀ i (h2 : i < tcs.length),
          ∃ res, (Agent.runToolCalls today rand tcs md k).turns.get? i
            = some (Agent.Turn.tool (tcs.get ⟨i, h2⟩).id res) := by
  intro tcs
  induction tcs with
  | nil =>
    intro md k _
    exact ⟨rfl, rfl, fun i h2 => absurd h2 (by simp)⟩
  | cons tc tl ih =>
    intro md k hwf
    have htc : wellFormedCall tc := hwf tc (by simp)
    obtain ⟨res, hres⟩ :=
      Option.isSome_iff_exists.mp (execute_tool_isSome today rand k tc htc)
    obtain ⟨hok, hlen, hget⟩ := ih (Agent.mdUpdate tc.name res md)
      (Agent.kNext tc.name k) (fun x hx => hwf x (by simp [hx]))
    rw [runToolCalls_cons_some today rand tc tl md k res hres]
    refine ⟨hok, by simp [hlen], ?_⟩
    intro i h2
    cases i with
    | zero => exact ⟨res, rfl⟩
    | succ j =>
      obtain ⟨res2, hres2⟩ := hget j (by simpa using h2)
      exact ⟨res2, by simpa using hres2⟩

/-- C7: when an engine response carries `n` well-formed tool invocations,
the orchestrator appends one assistant turn recording them and then the
invocations' result turns in exactly the order received — exactly `n`
tool-result turns, the i-th correlated to the i-th invocation's id —
before the next engine call starts from the extended transcript. -/
theorem tool_invocations_sequential
    (today : PyDate) (rand : Nat → Fin 10) (fuel : Nat)
    (rest : List Agent.EngineStep) (h : List Agent.Turn) (md : Agent.Metadata)
    (k : Nat) (c : Option String) (tcs : List Agent.ToolCall)
    (hne : tcs ≠ []) (hwf : ∀ tc ∈ tcs, wellFormedCall tc) :
    ∃ results md2 k2,
      Agent.agentLoop today rand (fuel + 1) (Agent.EngineStep.reply c tcs :: rest) h md k
        = Agent.agentLoop today rand fuel rest
            (h ++ Agent.Turn.assistant c tcs :: results) md2 k2
      ∧ results.length = tcs.length
      ∧ ∀ i (h2 : i < tcs.length),
          ∃ res, results.get? i = some (Agent.Turn.tool (tcs.get ⟨i, h2⟩).id res) := by
  cases tcs with
  | nil => exact absurd rfl hne
  | cons tc tl =>
    obtain ⟨hok, hlen, hget⟩ := runToolCalls_wellFormed today rand (tc :: tl) md k hwf
    refine ⟨(Agent.runToolCalls today rand (tc :: tl) md k).turns,
      (Agent.runToolCalls today rand (tc :: tl) md k).metadata,
      (Agent.runToolCalls today rand (tc :: tl) md k).rk, ?_, hlen, hget⟩
    rw [agentLoop_reply_tools]
    simp only [hok, if_true]

/-- C7 witness: a response requesting `validate_field`, `show_agreement`,
`create_account` in one turn yields exactly three tool-result turns, in
that order, before the next engine call. -/
theorem tool_invocations_sequential_witness :
    ∃ results md2 k2,
      Agent.agentLoop d0 rand0 1
          (Agent.EngineStep.reply none
            [⟨"c1", "validate_field", [("field_name", "firstName"), ("value", "John")]⟩,
             ⟨"c2", "show_agreement", []⟩,
             ⟨"c3", "create_account", [("firstName", "John"), ("lastName", "Doe")]⟩] :: [])
          [] {} 0
        = Agent.agentLoop d0 rand0 0 []
            ([] ++ Agent.Turn.assistant none
              [⟨"c1", "validate_field", [("field_name", "firstName"), ("value", "John")]⟩,
               ⟨"c2", "show_agreement", []⟩,
               ⟨"c3", "create_account", [("firstName", "John"), ("lastName", "Doe")]⟩] :: results)
            md2 k2
      ∧ results.length
          = [(⟨"c1", "validate_field", [("field_name", "firstName"), ("value", "John")]⟩ : Agent.ToolCall),
             ⟨"c2", "show_agreement", []⟩,
             ⟨"c3", "create_account", [("firstName", "John"), ("lastName", "Doe")]⟩].length
      ∧ ∀ i (h2 : i < [(⟨"c1", "validate_field", [("field_name", "firstName"), ("value", "John")]⟩ : Agent.ToolCall),
             ⟨"c2", "show_agreement", []⟩,
             ⟨"c3", "create_account", [("firstName", "John"), ("lastName", "Doe")]⟩].length),
          ∃ res, results.get? i
            = some (Agent.Turn.tool
                ([(⟨"c1", "validate_field", [("field_name", "firstName"), ("value", "John")]⟩ : Agent.ToolCall),
                  ⟨"c2", "show_agreement", []⟩,
                  ⟨"c3", "create_account", [("firstName", "John"), ("lastName", "Doe")]⟩].get ⟨i, h2⟩).id res) :=
  tool_invocations_sequential d0 rand0 0 [] [] {} 0 none
    [⟨"c1", "validate_field", [("field_name", "firstName"), ("value", "John")]⟩,
     ⟨"c2", "show_agreement", []⟩,
     ⟨"c3", "create_account", [("firstName", "John"), ("lastName", "Doe")]⟩]
    (by decide) (by decide)

-- ---------------------------------------------------------------------
-- C8 — iteration bound and fallback
-- ---------------------------------------------------------------------

/-- A scripted engine step that carries at least one tool invocation, all
well-formed. -/
def isToolStep (o : Option Agent.EngineStep) : Prop :=
  match o with
  | some (Agent.EngineStep.reply _ tcs) => tcs ≠ [] ∧ ∀ tc ∈ tcs, wellFormedCall tc
  | _ => False

instance : DecidablePred isToolStep := fun o =>
  match o with
  | some (Agent.EngineStep.reply _ tcs) =>
    inferInstanceAs (Decidable (tcs ≠ [] ∧ ∀ tc ∈ tcs, wellFormedCall tc))
  | some Agent.EngineStep.failure => isFalse (fun hx => hx)
  | none => isFalse (fun hx => hx)

/-- If the first `n` scripted engine responses all carry well-formed tool
invocations, running the loop with `n` fuel ends in the fallback reply,
with the fallback turn as the final appended turn. -/
lemma agentLoop_allTools (today : PyDate) (rand : Nat → Fin 10) :
    ∀ (n : Nat) (es : List Agent.EngineStep) (h : List Agent.Turn)
      (md : Agent.Metadata) (k : Nat),
      (∀ i, i < n → isToolStep (es.get? i)) →
      ∃ extra md2,
        Agent.agentLoop today rand n es h md k
          = ⟨h ++ extra ++ [Agent.Turn.assistant (some Agent.FALLBACK) []], md2,
             Agent.LoopOutcome.reply Agent.FALLBACK⟩ := by
  intro n
  induction n with
  | zero =>
    intro es h md k _
    exact ⟨[], md, by rw [agentLoop_zero]; simp⟩
  | succ f ih =>
    intro es h md k hsteps
    have h0 := hsteps 0 (Nat.succ_pos f)
    cases es with
    | nil => exact absurd h0 (by simp [isToolStep])
    | cons e rest =>
      cases e with
      | failure => exact absurd h0 (by simp [isToolStep])
      | reply c tcs =>
        obtain ⟨hne, hwf⟩ := h0
        cases tcs with
        | nil => exact absurd rfl hne
        | cons tc tl =>
          obtain ⟨hok, -, -⟩ := runToolCalls_wellFormed today rand (tc :: tl) md k hwf
          obtain ⟨extra2, md2, hrec⟩ := ih rest
            (h ++ Agent.Turn.assistant c (tc :: tl)
              :: (Agent.runToolCalls today rand (tc :: tl) md k).turns)
            (Agent.runToolCalls today rand (tc :: tl) md k).metadata
            (Agent.runToolCalls today rand (tc :: tl) md k).rk
            (fun i hi => by simpa using hsteps (i + 1) (Nat.succ_lt_succ hi))
          refine ⟨(Agent.Turn.assistant c (tc :: tl)
              :: (Agent.runToolCalls today rand (tc :: tl) md k).turns) ++ extra2, md2, ?_⟩
          rw [agentLoop_reply_tools]
          simp only [hok, if_true]
          rw [hrec]
          simp [List.append_assoc]

lemma agentLoop_take (today : PyDate) (rand : Nat → Fin 10) :
    ∀ (fuel : Nat) (es : List Agent.EngineStep) (h : List Agent.Turn)
      (md : Agent.Metadata) (k : Nat),
      Agent.agentLoop today rand fuel es h md k
        = Agent.agentLoop today rand fuel (es.take fuel) h md k := by
  intro fuel
  induction fuel with
  | zero =>
    intro es h md k
    rw [agentLoop_zero, agentLoop_zero]
  | succ f ih =>
    intro es h md k
    cases es with
    | nil => rw [List.take_nil]
    | cons e rest =>
      rw [List.take_succ_cons]
      cases e with
      | failure => rw [agentLoop_failure_head, agentLoop_failure_head]
      | reply c tcs =>
        cases tcs with
        | nil => rw [agentLoop_reply_final, agentLoop_reply_final]
        | cons tc tl =>
          rw [agentLoop_reply_tools, agentLoop_reply_tools]
          by_cases hok : (Agent.runToolCalls today rand (tc :: tl) md k).ok
          · simp only [hok, if_true]
            exact ih rest _ _ _
          · simp only [Bool.not_eq_true] at hok
            simp only [hok, Bool.false_eq_true, if_false]

/-- C8: if each of the first 10 scripted engine responses carries
well-formed tool invocations, the loop returns the fixed fallback reply
without failing, appends the fallback assistant turn last, and keeps the
metadata accumulated so far; the fuel-0 equation shows the fallback step
itself appends exactly one assistant turn and executes no tool; and the
outcome depends only on the first 10 engine steps (at most 10 engine
calls). -/
theorem iteration_bound_fallback (today : PyDate) (rand : Nat → Fin 10)
    (es : List Agent.EngineStep) (h : List Agent.Turn) (md : Agent.Metadata)
    (k : Nat) :
    ((∀ i, i < 10 → isToolStep (es.get? i)) →
      ∃ extra md2,
        Agent.agentLoop today rand 10 es h md k
          = ⟨h ++ extra ++ [Agent.Turn.assistant (some Agent.FALLBACK) []], md2,
             Agent.LoopOutcome.reply Agent.FALLBACK⟩)
  ∧ (∀ h2 md2 k2,
      Agent.agentLoop today rand 0 es h2 md2 k2
        = ⟨h2 ++ [Agent.Turn.assistant (some Agent.FALLBACK) []], md2,
           Agent.LoopOutcome.reply Agent.FALLBACK⟩)
  ∧ Agent.agentLoop today rand 10 es h md k
      = Agent.agentLoop today rand 10 (es.take 10) h md k :=
  ⟨fun hall => agentLoop_allTools today rand 10 es h md k hall,
   fun h2 md2 k2 => agentLoop_zero today rand es h2 md2 k2,
   agentLoop_take today rand 10 es h md k⟩

/-- C8 witness: ten consecutive tool-carrying responses exhaust the bound
and produce the fallback reply. -/
theorem iteration_bound_fallback_witness :
    ∃ extra md2,
      Agent.agentLoop d0 rand0 10
          (List.replicate 12 (Agent.EngineStep.reply none [⟨"t1", "show_agreement", []⟩]))
          [] {} 0
        = ⟨[] ++ extra ++ [Agent.Turn.assistant (some Agent.FALLBACK) []], md2,
           Agent.LoopOutcome.reply Agent.FALLBACK⟩ :=
  (iteration_bound_fallback d0 rand0
      (List.replicate 12 (Agent.EngineStep.reply none [⟨"t1", "show_agreement", []⟩]))
      [] {} 0).1 (by decide)

-- ---------------------------------------------------------------------
-- C9 — append-only transcript
-- ---------------------------------------------------------------------

/-- The loop only ever appends to the transcript it is given. -/
lemma agentLoop_history_extends (today : PyDate) (rand : Nat → Fin 10) :
    ∀ (fuel : Nat) (es : List Agent.EngineStep) (h : List Agent.Turn)
      (md : Agent.Metadata) (k : Nat),
      ∃ ext, (Agent.agentLoop today rand fuel es h md k).history = h ++ ext := by
  intro fuel
  induction fuel with
  | zero =>
    intro es h md k
    exact ⟨[Agent.Turn.assistant (some Agent.FALLBACK) []], by rw [agentLoop_zero]⟩
  | succ f ih =>
    intro es h md k
    cases es with
    | nil => exact ⟨[], by rw [agentLoop_nil]; simp⟩
    | cons e rest =>
      cases e with
      | failure => exact ⟨[], by rw [agentLoop_failure_head]; simp⟩
      | reply c tcs =>
        cases tcs with
        | nil =>
          exact ⟨[Agent.Turn.assistant (some (c.getD "")) []],
            by rw [agentLoop_reply_final]⟩
        | cons tc tl =>
          by_cases hok : (Agent.runToolCalls today rand (tc :: tl) md k).ok
          · obtain ⟨ext, hext⟩ := ih rest
              (h ++ Agent.Turn.assistant c (tc :: tl)
                :: (Agent.runToolCalls today rand (tc :: tl) md k).turns)
              (Agent.runToolCalls today rand (tc :: tl) md k).metadata
              (Agent.runToolCalls today rand (tc :: tl) md k).rk
            refine ⟨(Agent.Turn.assistant c (tc :: tl)
                :: (Agent.runToolCalls today rand (tc :: tl) md k).turns) ++ ext, ?_⟩
            rw [agentLoop_reply_tools]
            simp only [hok, if_true]
            rw [hext]
            simp [List.append_assoc]
          · simp only [Bool.not_eq_true] at hok
            refine ⟨Agent.Turn.assistant c (tc :: tl)
                :: (Agent.runToolCalls today rand (tc :: tl) md k).turns, ?_⟩
            rw [agentLoop_reply_tools]
            simp only [hok, Bool.false_eq_true, if_false]

/-- C9: a `process_message` call on an existing session only appends to
that session's transcript — every prior turn survives, unmodified and in
order, as a prefix of the stored transcript afterwards (hence transcripts
never shrink across repeated calls). -/
theorem transcript_append_only
    (today : PyDate) (rand : Nat → Fin 10) (fresh : String)
    (es : List Agent.EngineStep) (sid msg : String)
    (store : Agent.SessionStore) (t : List Agent.Turn)
    (h1 : sid ≠ "") (h2 : Agent.lookupStore store sid = some t) :
    ∃ ext,
      Agent.lookupStore
          (Agent.process_message today rand fresh es (some sid) msg store).1 sid
        = some (t ++ ext) := by
  obtain ⟨ext, hext⟩ := agentLoop_history_extends today rand 10 es
    (t ++ [Agent.Turn.user msg]) {} 0
  refine ⟨[Agent.Turn.user msg] ++ ext, ?_⟩
  simp only [Agent.process_message, gocs_known fresh sid store t h1 h2, h2,
    Option.getD_some]
  cases hout : (Agent.agentLoop today rand 10 es (t ++ [Agent.Turn.user msg]) {} 0).outcome
  · simp only [hout]
    rw [lookupStore_insert_self, hext, List.append_assoc]
  · simp only [hout]
    rw [lookupStore_insert_self, hext, List.append_assoc]

/-- C9 witness: a completed call on session "s" stores the old transcript
followed by the new turns. -/
theorem transcript_append_only_witness :
    ∃ ext,
      Agent.lookupStore
          (Agent.process_message d0 rand0 "u"
            [Agent.EngineStep.reply (some "hello") []] (some "s") "hi" storeS).1 "s"
        = some ([Agent.Turn.system Agent.SYSTEM_PROMPT] ++ ext) :=
  transcript_append_only d0 rand0 "u" [Agent.EngineStep.reply (some "hello") []]
    "s" "hi" storeS [Agent.Turn.system Agent.SYSTEM_PROMPT] (by decide) rfl

-- ---------------------------------------------------------------------
-- C3 — validate_field is total and well-formed
-- ---------------------------------------------------------------------

lemma unknown_msg_ne (n : String) : "Unknown field: " ++ n ≠ "" := by
  intro h
  cases n with
  | mk l =>
    have h2 : "Unknown field: ".data ++ l = [] := congrArg String.data h
    exact absurd (List.append_eq_nil.mp h2).1 (by decide)

lemma dobAgeCheck_wf (today dob : PyDate) (v : String) :
    ((Agent.dobAgeCheck today dob v).cleaned_value.isSome
        = (Agent.dobAgeCheck today dob v).valid)
    ∧ (Agent.dobAgeCheck today dob v).message ≠ "" := by
  simp only [Agent.dobAgeCheck]
  repeat' split
  all_goals refine ⟨rfl, ?_⟩
  all_goals simp

set_option maxHeartbeats 2000000 in
lemma validate_field_wf_aux (today : PyDate) (fn v : String) :
    ((Agent.validate_field today fn v).cleaned_value.isSome
        = (Agent.validate_field today fn v).valid)
    ∧ (Agent.validate_field today fn v).message ≠ "" := by
  simp only [Agent.validate_field]
  repeat' split
  all_goals first
    | exact dobAgeCheck_wf today _ _
    | exact ⟨rfl, unknown_msg_ne fn⟩
    | (refine ⟨rfl, ?_⟩; simp)

lemma validate_field_unknown (today : PyDate) (fn v : String)
    (h : fn ∉ FIELD_NAMES) :
    Agent.validate_field today fn v
      = ⟨false, "Unknown field: " ++ fn, none⟩ := by
  simp only [FIELD_NAMES, List.mem_cons, List.not_mem_nil, or_false, not_or] at h
  obtain ⟨h1, h2, h3, h4, h5, h6, h7, h8, h9, h10⟩ := h
  simp only [Agent.validate_field]
  simp [h1, h2, h3, h4, h5, h6, h7, h8, h9, h10]

/-- C3: `validate_field` is a total function (by construction in this
embedding — the Python code wraps every throwing parse in try/except);
for every field name and value the result is well-formed: a cleaned
value is present exactly when the result is valid, the message is never
empty, and an unknown field name yields `valid=false` with an
"Unknown field" message. -/
theorem validate_field_total_wellformed (today : PyDate) (field_name value : String) :
    ((Agent.validate_field today field_name value).cleaned_value.isSome
        = (Agent.validate_field today field_name value).valid)
  ∧ (Agent.validate_field today field_name value).message ≠ ""
  ∧ (field_name ∉ FIELD_NAMES →
      Agent.validate_field today field_name value
        = ⟨false, "Unknown field: " ++ field_name, none⟩) :=
  ⟨(validate_field_wf_aux today field_name value).1,
   (validate_field_wf_aux today field_name value).2,
   fun hn => validate_field_unknown today field_name value hn⟩

/-- C3 witness: the theorem applied to an unknown field name and a
whitespace-only value. -/
theorem validate_field_total_wellformed_witness :
    Agent.validate_field d0 "favoriteColor" "   "
      = ⟨false, "Unknown field: " ++ "favoriteColor", none⟩ :=
  (validate_field_total_wellformed d0 "favoriteColor" "   ").2.2 (by decide)

-- ---------------------------------------------------------------------
-- C4 — the two validation paths agree
-- ---------------------------------------------------------------------

lemma ws_not_digit : ∀ c : Char, c.isWhitespace = true → c.isDigit = false := by
  intro c h
  simp [Char.isWhitespace] at h
  rcases h with ((h | h) | h) | h <;> subst h <;> decide

lemma filter_dropWhile_ws (p : Char → Bool)
    (hp : ∀ c, c.isWhitespace = true → p c = false) (l : List Char) :
    (l.dropWhile Char.isWhitespace).filter p = l.filter p := by
  conv_rhs => rw [← List.takeWhile_append_dropWhile (p := Char.isWhitespace) (l := l)]
  rw [List.filter_append]
  have hnil : (l.takeWhile Char.isWhitespace).filter p = [] := by
    rw [List.filter_eq_nil_iff]
    intro a ha
    simp [hp a (List.mem_takeWhile_imp ha)]
  rw [hnil, List.nil_append]

lemma filter_pyStripList (p : Char → Bool)
    (hp : ∀ c, c.isWhitespace = true → p c = false) (cs : List Char) :
    (pyStripList cs).filter p = cs.filter p := by
  unfold pyStripList
  rw [List.filter_reverse, filter_dropWhile_ws p hp, List.filter_reverse,
    List.reverse_reverse, filter_dropWhile_ws p hp]

/-- Stripping surrounding whitespace does not change the digit characters. -/
lemma digitsOf_pyStrip (s : String) : digitsOf (pyStrip s) = digitsOf s :=
  filter_pyStripList Char.isDigit ws_not_digit s.toList

@[simp] lemma except_isOk_ok {ε α : Type} (a : α) :
    (Except.ok a : Except ε α).isOk = true := rfl

@[simp] lemma except_isOk_error {ε α : Type} (e : ε) :
    (Except.error e : Except ε α).isOk = false := rfl

/-- Agreement between a dialogue-path validation result and a direct-path
validator outcome: same accept/reject decision and, on acceptance, the
same cleaned value. -/
def agrees (r : Agent.ValidationResult) (e : Except String String) : Prop :=
  (r.valid = true ↔ e.isOk = true) ∧ ∀ c, e = Except.ok c → r.cleaned_value = some c

/-- The direct path's validator for each of the ten field names
(tabulation of main.py's per-field validators). -/
def mainFieldValidator (today : PyDate) (f v : String) : Except String String :=
  match f with
  | "firstName" => Main.validate_first_name v
  | "lastName" => Main.validate_last_name v
  | "email" => Main.validate_email v
  | "phone" => Main.validate_phone v
  | "dateOfBirth" => Main.validate_dob today v
  | "ssn" => Main.validate_ssn v
  | "street" => Main.validate_street v
  | "city" => Main.validate_city v
  | "state" => Main.validate_state v
  | "zip" => Main.validate_zip v
  | _ => Except.error "unknown field"

lemma agree_firstName (today : PyDate) (v : String) :
    agrees (Agent.validate_field today "firstName" v) (Main.validate_first_name v) := by
  by_cases h0 : pyStrip v = ""
  · have hl : (pyStrip v).length = 0 := by rw [h0]; rfl
    simp [agrees, Agent.validate_field, Main.validate_first_name, h0, hl]
  · by_cases h1 : (pyStrip v).length < 2 ∨ (pyStrip v).length > 50
    · simp [agrees, Agent.validate_field, Main.validate_first_name, h0, h1]
    · by_cases h2 : matchesNameRe (pyStrip v) <;>
        simp [agrees, Agent.validate_field, Main.validate_first_name, h0, h1, h2]

lemma agree_lastName (today : PyDate) (v : String) :
    agrees (Agent.validate_field today "lastName" v) (Main.validate_last_name v) := by
  by_cases h0 : pyStrip v = ""
  · have hl : (pyStrip v).length = 0 := by rw [h0]; rfl
    simp [agrees, Agent.validate_field, Main.validate_last_name, h0, hl]
  · by_cases h1 : (pyStrip v).length < 2 ∨ (pyStrip v).length > 50
    · simp [agrees, Agent.validate_field, Main.validate_last_name, h0, h1]
    · by_cases h2 : matchesNameRe (pyStrip v) <;>
        simp [agrees, Agent.validate_field, Main.validate_last_name, h0, h1, h2]

lemma agree_email (today : PyDate) (v : String) :
    agrees (Agent.validate_field today "email" v) (Main.validate_email v) := by
  by_cases h0 : pyStrip v = ""
  · simp [agrees, Agent.validate_field, Main.validate_email, h0,
      show matchesEmailRe "" = false from rfl]
  · by_cases h1 : matchesEmailRe (pyStrip v) <;>
      simp [agrees, Agent.validate_field, Main.validate_email, h0, h1]

lemma agree_phone (today : PyDate) (v : String) :
    agrees (Agent.validate_field today "phone" v) (Main.validate_phone v) := by
  have hd := digitsOf_pyStrip v
  by_cases h1 : (digitsOf v).length = 10 <;>
    simp [agrees, Agent.validate_field, Main.validate_phone, hd, h1]

lemma agree_ssn (today : PyDate) (v : String) :
    agrees (Agent.validate_field today "ssn" v) (Main.validate_ssn v) := by
  have hd := digitsOf_pyStrip v
  by_cases h1 : (digitsOf v).length = 9
  · by_cases h2 : Agent.ssnBadStart (digitsOf v) <;>
      simp [agrees, Agent.validate_field, Main.validate_ssn, hd, h1, h2]
  · simp [agrees, Agent.validate_field, Main.validate_ssn, hd, h1]

lemma agree_street (today : PyDate) (v : String) :
    agrees (Agent.validate_field today "street" v) (Main.validate_street v) := by
  by_cases h1 : (pyStrip v).length < 5 ∨ (pyStrip v).length > 100 <;>
    simp [agrees, Agent.validate_field, Main.validate_street, h1]

lemma agree_city (today : PyDate) (v : String) :
    agrees (Agent.validate_field today "city" v) (Main.validate_city v) := by
  by_cases h1 : matchesNameRe (pyStrip v) <;>
    simp [agrees, Agent.validate_field, Main.validate_city, h1]

lemma agree_state (today : PyDate) (v : String) :
    agrees (Agent.validate_field today "state" v) (Main.validate_state v) := by
  have hs : Main.valid_states = Agent.VALID_STATES := rfl
  by_cases h1 : pyUpper (pyStrip v) ∈ Agent.VALID_STATES <;>
    simp [agrees, Agent.validate_field, Main.validate_state, hs, h1]

lemma agree_zip (today : PyDate) (v : String) :
    agrees (Agent.validate_field today "zip" v) (Main.validate_zip v) := by
  by_cases h1 : matchesZipRe (pyStrip v) <;>
    simp [agrees, Agent.validate_field, Main.validate_zip, h1]

lemma agree_dobAge (today dob : PyDate) (v : String) :
    agrees (Agent.dobAgeCheck today dob v) (Main.dobAgeCheck today dob v) := by
  by_cases a1 : pyAge today dob < 18
  · simp [agrees, Agent.dobAgeCheck, Main.dobAgeCheck, a1]
  · by_cases a2 : pyAge today dob > 120 <;>
      simp [agrees, Agent.dobAgeCheck, Main.dobAgeCheck, a1, a2]

lemma agree_dob (today : PyDate) (v : String) :
    agrees (Agent.validate_field today "dateOfBirth" v) (Main.validate_dob today v) := by
  by_cases h0 : pyStrip v = ""
  · simp [agrees, Agent.validate_field, Main.validate_dob, h0,
      show ("" : String).toList = [] from rfl,
      show shapeSlash [] = false from rfl, show shapeDash [] = false from rfl]
  · by_cases h1 : shapeSlash (pyStrip v).data = true
    · cases hp : parseSlashDate (pyStrip v) with
      | none => simp [agrees, Agent.validate_field, Main.validate_dob, h0, h1, hp]
      | some dob =>
        simpa [Agent.validate_field, Main.validate_dob, h0, h1, hp] using
          agree_dobAge today dob (pyStrip v)
    · by_cases h2 : shapeDash (pyStrip v).data = true
      · cases hp : parseDashDate (pyStrip v) with
        | none => simp [agrees, Agent.validate_field, Main.validate_dob, h0, h1, h2, hp]
        | some dob =>
          simpa [Agent.validate_field, Main.validate_dob, h0, h1, h2, hp] using
            agree_dobAge today dob (pyStrip v)
      · simp [agrees, Agent.validate_field, Main.validate_dob, h0, h1, h2]

/-- C4: for each of the 10 fields and every input string, the direct
account-creation path's server-side validator and the dialogue path's
`validate_field` make the same accept/reject decision and produce the
same cleaned value. -/
theorem dual_validation_paths_agree (today : PyDate) (name v : String)
    (h : name ∈ FIELD_NAMES) :
    agrees (Agent.validate_field today name v) (mainFieldValidator today name v) := by
  fin_cases h
  · exact agree_firstName today v
  · exact agree_lastName today v
  · exact agree_email today v
  · exact agree_phone today v
  · exact agree_dob today v
  · exact agree_ssn today v
  · exact agree_street today v
  · exact agree_city today v
  · exact agree_state today v
  · exact agree_zip today v

/-- C4 witness: the theorem at the state field on input "ca" — both paths
accept and clean to "CA". -/
theorem dual_validation_paths_agree_witness :
    (Agent.validate_field d0 "state" "ca").valid = true
      ↔ (mainFieldValidator d0 "state" "ca").isOk = true :=
  (dual_validation_paths_agree d0 "state" "ca" (by decide)).1

-- ---------------------------------------------------------------------
-- C5 — dateOfBirth validator
-- ---------------------------------------------------------------------

/-- C5 counterexample: on success the cleaned value is the TRIMMED input,
not the original input string — the whitespace-padded input " 01/01/2000"
is accepted but its cleaned value differs from the original string. -/
theorem dob_cleaned_value_not_original :
    (Agent.validate_field d0 "dateOfBirth" " 01/01/2000").valid = true
  ∧ (Agent.validate_field d0 "dateOfBirth" " 01/01/2000").cleaned_value
      ≠ some " 01/01/2000" := by
  constructor
  · decide
  · decide

/-- C5 (amended): the dateOfBirth validator accepts exactly the inputs
whose trimmed value has the `MM/DD/YYYY` or `YYYY-MM-DD` shape, names a
real calendar date, and gives an age (year difference adjusted by
month/day comparison, as of `today`) between 18 and 120; on success the
cleaned value is the trimmed input string (not the original).  With
today = 2025-06-01, "01/01/2000" is valid (age 25) and "01/01/2010" is
rejected as under 18. -/
theorem dob_validator_behavior (today : PyDate) (v : String) :
    ((Agent.validate_field today "dateOfBirth" v).valid = true →
      (Agent.validate_field today "dateOfBirth" v).cleaned_value = some (pyStrip v)
      ∧ ∃ dob, parseDOB (pyStrip v) = some dob
          ∧ 18 ≤ pyAge today dob ∧ pyAge today dob ≤ 120)
  ∧ (∀ dob, parseDOB (pyStrip v) = some dob →
      18 ≤ pyAge today dob → pyAge today dob ≤ 120 →
      (Agent.validate_field today "dateOfBirth" v).valid = true
        ∧ (Agent.validate_field today "dateOfBirth" v).cleaned_value = some (pyStrip v))
  ∧ Agent.validate_field ⟨2025, 6, 1⟩ "dateOfBirth" "01/01/2000"
      = ⟨true, "Valid", some "01/01/2000"⟩
  ∧ Agent.validate_field ⟨2025, 6, 1⟩ "dateOfBirth" "01/01/2010"
      = ⟨false, "You must be at least 18 years old.", none⟩ := by
  refine ⟨?_, ?_, by decide, by decide⟩
  · by_cases h0 : pyStrip v = ""
    · simp [Agent.validate_field, h0, show ("" : String).toList = [] from rfl,
        show shapeSlash [] = false from rfl, show shapeDash [] = false from rfl]
    · by_cases h1 : shapeSlash (pyStrip v).data = true
      · cases hp : parseSlashDate (pyStrip v) with
        | none => simp [Agent.validate_field, h0, h1, hp]
        | some dob =>
          by_cases a1 : pyAge today dob < 18
          · simp [Agent.validate_field, Agent.dobAgeCheck, h0, h1, hp, a1]
          · by_cases a2 : pyAge today dob > 120
            · simp [Agent.validate_field, Agent.dobAgeCheck, h0, h1, hp, a1, a2]
            · intro _
              refine ⟨by simp [Agent.validate_field, Agent.dobAgeCheck, h0, h1, hp, a1, a2],
                dob, ?_, by omega, by omega⟩
              simp [parseDOB, h1, hp]
      · by_cases h2 : shapeDash (pyStrip v).data = true
        · cases hp : parseDashDate (pyStrip v) with
          | none => simp [Agent.validate_field, h0, h1, h2, hp]
          | some dob =>
            by_cases a1 : pyAge today dob < 18
            · simp [Agent.validate_field, Agent.dobAgeCheck, h0, h1, h2, hp, a1]
            · by_cases a2 : pyAge today dob > 120
              · simp [Agent.validate_field, Agent.dobAgeCheck, h0, h1, h2, hp, a1, a2]
              · intro _
                refine ⟨by simp [Agent.validate_field, Agent.dobAgeCheck, h0, h1, h2, hp, a1, a2],
                  dob, ?_, by omega, by omega⟩
                simp [parseDOB, h1, h2, hp]
        · simp [Agent.validate_field, h0, h1, h2]
  · intro dob hparse h18 h120
    have a1 : ¬ pyAge today dob < 18 := by omega
    have a2 : ¬ pyAge today dob > 120 := by omega
    by_cases h1 : shapeSlash (pyStrip v).data = true
    · have hp : parseSlashDate (pyStrip v) = some dob := by
        simpa [parseDOB, h1] using hparse
      have h0 : pyStrip v ≠ "" := by
        intro h0; rw [h0] at h1; exact absurd h1 (by decide)
      simp [Agent.validate_field, Agent.dobAgeCheck, h0, h1, hp, a1, a2]
    · by_cases h2 : shapeDash (pyStrip v).data = true
      · have hp : parseDashDate (pyStrip v) = some dob := by
          simpa [parseDOB, h1, h2] using hparse
        have h0 : pyStrip v ≠ "" := by
          intro h0; rw [h0] at h2; exact absurd h2 (by decide)
        simp [Agent.validate_field, Agent.dobAgeCheck, h0, h1, h2, hp, a1, a2]
      · exact absurd hparse (by simp [parseDOB, h1, h2])

/-- C5 witness: the amended theorem's acceptance direction applied to the
concrete birthdate 2000-01-01 with today = 2025-06-01 (age 25). -/
theorem dob_validator_behavior_witness :
    (Agent.validate_field ⟨2025, 6, 1⟩ "dateOfBirth" "01/01/2000").valid = true
      ∧ (Agent.validate_field ⟨2025, 6, 1⟩ "dateOfBirth" "01/01/2000").cleaned_value
          = some (pyStrip "01/01/2000") :=
  (dob_validator_behavior ⟨2025, 6, 1⟩ "01/01/2000").2.1 ⟨2000, 1, 1⟩
    (by decide) (by decide) (by decide)

-- ---------------------------------------------------------------------
-- C2 — direct account-creation path validates server-side
-- ---------------------------------------------------------------------

set_option maxHeartbeats 1600000 in
/-- C2: the direct account-creation operation re-validates every field
server-side; if any field (in pydantic's declaration order) is invalid,
the request is rejected with a structured error naming the first
offending field and its message, and no account response (hence no
account or routing number) is produced; when every validator passes —
which requires the consent flag to be true — a "Checking" account
response is returned whose customer name is the cleaned first and last
names joined by a space. -/
theorem direct_create_account_validation (today : PyDate) (rand : Nat → Fin 10)
    (r : Main.AccountRequest) :
    (∀ f m, Main.firstOffending today r = some (f, m) →
      Main.create_account today rand r = Except.error (f, m))
  ∧ (Main.firstOffending today r = none →
      ∃ resp, Main.create_account today rand r = Except.ok resp
        ∧ resp.accountType = "Checking"
        ∧ ∀ fn2 ln2, Main.validate_first_name r.firstName = Except.ok fn2 →
            Main.validate_last_name r.lastName = Except.ok ln2 →
            resp.customerName = fn2 ++ " " ++ ln2) := by
  cases hfn : Main.validate_first_name r.firstName with
  | error m1 =>
    have hfo : Main.firstOffending today r = some ("firstName", m1) := by
      simp [Main.firstOffending, Main.firstOffendingAux, Main.FIELD_ORDER, Main.fieldCheck, hfn]
    have hcre : Main.create_account today rand r = Except.error ("firstName", m1) := by
      simp [Main.create_account, Main.validateAccountRequest, hfn]
    refine ⟨?_, ?_⟩
    · intro f m hoff
      rw [hfo] at hoff
      simp only [Option.some.injEq, Prod.mk.injEq] at hoff
      obtain ⟨hf1, hf2⟩ := hoff
      subst hf1
      subst hf2
      exact hcre
    · intro hnone
      rw [hfo] at hnone
      exact Option.noConfusion hnone
  | ok fn =>
    cases hln : Main.validate_last_name r.lastName with
    | error m1 =>
      have hfo : Main.firstOffending today r = some ("lastName", m1) := by
        simp [Main.firstOffending, Main.firstOffendingAux, Main.FIELD_ORDER, Main.fieldCheck, hfn, hln]
      have hcre : Main.create_account today rand r = Except.error ("lastName", m1) := by
        simp [Main.create_account, Main.validateAccountRequest, hfn, hln]
      refine ⟨?_, ?_⟩
      · intro f m hoff
        rw [hfo] at hoff
        simp only [Option.some.injEq, Prod.mk.injEq] at hoff
        obtain ⟨hf1, hf2⟩ := hoff
        subst hf1
        subst hf2
        exact hcre
      · intro hnone
        rw [hfo] at hnone
        exact Option.noConfusion hnone
    | ok ln =>
      cases hem : Main.validate_email r.email with
      | error m1 =>
        have hfo : Main.firstOffending today r = some ("email", m1) := by
          simp [Main.firstOffending, Main.firstOffendingAux, Main.FIELD_ORDER, Main.fieldCheck, hfn, hln, hem]
        have hcre : Main.create_account today rand r = Except.error ("email", m1) := by
          simp [Main.create_account, Main.validateAccountRequest, hfn, hln, hem]
        refine ⟨?_, ?_⟩
        · intro f m hoff
          rw [hfo] at hoff
          simp only [Option.some.injEq, Prod.mk.injEq] at hoff
          obtain ⟨hf1, hf2⟩ := hoff
          subst hf1
          subst hf2
          exact hcre
        · intro hnone
          rw [hfo] at hnone
          exact Option.noConfusion hnone
      | ok em =>
        cases hph : Main.validate_phone r.phone with
        | error m1 =>
          have hfo : Main.firstOffending today r = some ("phone", m1) := by
            simp [Main.firstOffending, Main.firstOffendingAux, Main.FIELD_ORDER, Main.fieldCheck, hfn, hln, hem, hph]
          have hcre : Main.create_account today rand r = Except.error ("phone", m1) := by
            simp [Main.create_account, Main.validateAccountRequest, hfn, hln, hem, hph]
          refine ⟨?_, ?_⟩
          · intro f m hoff
            rw [hfo] at hoff
            simp only [Option.some.injEq, Prod.mk.injEq] at hoff
            obtain ⟨hf1, hf2⟩ := hoff
            subst hf1
            subst hf2
            exact hcre
          · intro hnone
            rw [hfo] at hnone
            exact Option.noConfusion hnone
        | ok ph =>
          cases hdob : Main.validate_dob today r.dateOfBirth with
          | error m1 =>
            have hfo : Main.firstOffending today r = some ("dateOfBirth", m1) := by
              simp [Main.firstOffending, Main.firstOffendingAux, Main.FIELD_ORDER, Main.fieldCheck, hfn, hln, hem, hph, hdob]
            have hcre : Main.create_account today rand r = Except.error ("dateOfBirth", m1) := by
              simp [Main.create_account, Main.validateAccountRequest, hfn, hln, hem, hph, hdob]
            refine ⟨?_, ?_⟩
            · intro f m hoff
              rw [hfo] at hoff
              simp only [Option.some.injEq, Prod.mk.injEq] at hoff
              obtain ⟨hf1, hf2⟩ := hoff
              subst hf1
              subst hf2
              exact hcre
            · intro hnone
              rw [hfo] at hnone
              exact Option.noConfusion hnone
          | ok dobv =>
            cases hsn : Main.validate_ssn r.ssn with
            | error m1 =>
              have hfo : Main.firstOffending today r = some ("ssn", m1) := by
                simp [Main.firstOffending, Main.firstOffendingAux, Main.FIELD_ORDER, Main.fieldCheck, hfn, hln, hem, hph, hdob, hsn]
              have hcre : Main.create_account today rand r = Except.error ("ssn", m1) := by
                simp [Main.create_account, Main.validateAccountRequest, hfn, hln, hem, hph, hdob, hsn]
              refine ⟨?_, ?_⟩
              · intro f m hoff
                rw [hfo] at hoff
                simp only [Option.some.injEq, Prod.mk.injEq] at hoff
                obtain ⟨hf1, hf2⟩ := hoff
                subst hf1
                subst hf2
                exact hcre
              · intro hnone
                rw [hfo] at hnone
                exact Option.noConfusion hnone
            | ok sn =>
              cases hst : Main.validate_street r.address.street with
              | error m1 =>
                have hfo : Main.firstOffending today r = some ("street", m1) := by
                  simp [Main.firstOffending, Main.firstOffendingAux, Main.FIELD_ORDER, Main.fieldCheck, hfn, hln, hem, hph, hdob, hsn, hst]
                have hcre : Main.create_account today rand r = Except.error ("street", m1) := by
                  simp [Main.create_account, Main.validateAccountRequest, hfn, hln, hem, hph, hdob, hsn, hst]
                refine ⟨?_, ?_⟩
                · intro f m hoff
                  rw [hfo] at hoff
                  simp only [Option.some.injEq, Prod.mk.injEq] at hoff
                  obtain ⟨hf1, hf2⟩ := hoff
                  subst hf1
                  subst hf2
                  exact hcre
                · intro hnone
                  rw [hfo] at hnone
                  exact Option.noConfusion hnone
              | ok st =>
                cases hci : Main.validate_city r.address.city with
                | error m1 =>
                  have hfo : Main.firstOffending today r = some ("city", m1) := by
                    simp [Main.firstOffending, Main.firstOffendingAux, Main.FIELD_ORDER, Main.fieldCheck, hfn, hln, hem, hph, hdob, hsn, hst, hci]
                  have hcre : Main.create_account today rand r = Except.error ("city", m1) := by
                    simp [Main.create_account, Main.validateAccountRequest, hfn, hln, hem, hph, hdob, hsn, hst, hci]
                  refine ⟨?_, ?_⟩
                  · intro f m hoff
                    rw [hfo] at hoff
                    simp only [Option.some.injEq, Prod.mk.injEq] at hoff
                    obtain ⟨hf1, hf2⟩ := hoff
                    subst hf1
                    subst hf2
                    exact hcre
                  · intro hnone
                    rw [hfo] at hnone
                    exact Option.noConfusion hnone
                | ok ci =>
                  cases hsta : Main.validate_state r.address.state with
                  | error m1 =>
                    have hfo : Main.firstOffending today r = some ("state", m1) := by
                      simp [Main.firstOffending, Main.firstOffendingAux, Main.FIELD_ORDER, Main.fieldCheck, hfn, hln, hem, hph, hdob, hsn, hst, hci, hsta]
                    have hcre : Main.create_account today rand r = Except.error ("state", m1) := by
                      simp [Main.create_account, Main.validateAccountRequest, hfn, hln, hem, hph, hdob, hsn, hst, hci, hsta]
                    refine ⟨?_, ?_⟩
                    · intro f m hoff
                      rw [hfo] at hoff
                      simp only [Option.some.injEq, Prod.mk.injEq] at hoff
                      obtain ⟨hf1, hf2⟩ := hoff
                      subst hf1
                      subst hf2
                      exact hcre
                    · intro hnone
                      rw [hfo] at hnone
                      exact Option.noConfusion hnone
                  | ok sta =>
                    cases hzi : Main.validate_zip r.address.zip with
                    | error m1 =>
                      have hfo : Main.firstOffending today r = some ("zip", m1) := by
                        simp [Main.firstOffending, Main.firstOffendingAux, Main.FIELD_ORDER, Main.fieldCheck, hfn, hln, hem, hph, hdob, hsn, hst, hci, hsta, hzi]
                      have hcre : Main.create_account today rand r = Except.error ("zip", m1) := by
                        simp [Main.create_account, Main.validateAccountRequest, hfn, hln, hem, hph, hdob, hsn, hst, hci, hsta, hzi]
                      refine ⟨?_, ?_⟩
                      · intro f m hoff
                        rw [hfo] at hoff
                        simp only [Option.some.injEq, Prod.mk.injEq] at hoff
                        obtain ⟨hf1, hf2⟩ := hoff
                        subst hf1
                        subst hf2
                        exact hcre
                      · intro hnone
                        rw [hfo] at hnone
                        exact Option.noConfusion hnone
                    | ok zi =>
                      cases hag : Main.validate_agreed r.agreedToTerms with
                      | error m1 =>
                        have hfo : Main.firstOffending today r = some ("agreedToTerms", m1) := by
                          simp [Main.firstOffending, Main.firstOffendingAux, Main.FIELD_ORDER, Main.fieldCheck, hfn, hln, hem, hph, hdob, hsn, hst, hci, hsta, hzi, hag]
                        have hcre : Main.create_account today rand r = Except.error ("agreedToTerms", m1) := by
                          simp [Main.create_account, Main.validateAccountRequest, hfn, hln, hem, hph, hdob, hsn, hst, hci, hsta, hzi, hag]
                        refine ⟨?_, ?_⟩
                        · intro f m hoff
                          rw [hfo] at hoff
                          simp only [Option.some.injEq, Prod.mk.injEq] at hoff
                          obtain ⟨hf1, hf2⟩ := hoff
                          subst hf1
                          subst hf2
                          exact hcre
                        · intro hnone
                          rw [hfo] at hnone
                          exact Option.noConfusion hnone
                      | ok ag =>
                        have hfo : Main.firstOffending today r = none := by
                          simp [Main.firstOffending, Main.firstOffendingAux, Main.FIELD_ORDER, Main.fieldCheck, hfn, hln, hem, hph, hdob, hsn, hst, hci, hsta, hzi, hag]
                        refine ⟨?_, ?_⟩
                        · intro f m hoff
                          rw [hfo] at hoff
                          exact Option.noConfusion hoff
                        · intro hnone2
                          refine ⟨⟨Agent.randDigits rand 0 10, Agent.randDigits rand 10 9, "Checking",
                            "Account created successfully!", fn ++ " " ++ ln⟩, ?_, rfl, ?_⟩
                          · simp [Main.create_account, Main.validateAccountRequest, hfn, hln, hem, hph, hdob, hsn, hst, hci, hsta, hzi, hag]
                          · intro fn2 ln2 hfn2 hln2
                            have e1 : fn = fn2 := Except.ok.inj hfn2
                            have e2 : ln = ln2 := Except.ok.inj hln2
                            rw [← e1, ← e2]

/-- A fully valid concrete account request. -/
def sampleRequestValid : Main.AccountRequest :=
  ⟨"John", "Doe", "john@example.com", "(555) 123-4567", "01/01/2000",
   "078-05-1120", ⟨"123 Main St", "Springfield", "ca", "12345"⟩, true⟩

/-- The same request with a one-letter first name (invalid). -/
def sampleRequestBadName : Main.AccountRequest :=
  ⟨"J", "Doe", "john@example.com", "(555) 123-4567", "01/01/2000",
   "078-05-1120", ⟨"123 Main St", "Springfield", "ca", "12345"⟩, true⟩

/-- C2 witness: the theorem applied to a concrete invalid request (first
offending field `firstName`) and to a concrete valid one. -/
theorem direct_create_account_validation_witness :
    Main.create_account d0 rand0 sampleRequestBadName
      = Except.error ("firstName", "First name must be 2–50 characters.")
  ∧ ∃ resp, Main.create_account d0 rand0 sampleRequestValid = Except.ok resp
      ∧ resp.accountType = "Checking" := by
  refine ⟨(direct_create_account_validation d0 rand0 sampleRequestBadName).1
    "firstName" "First name must be 2–50 characters." (by decide), ?_⟩
  obtain ⟨resp, hA, hB, -⟩ :=
    (direct_create_account_validation d0 rand0 sampleRequestValid).2 (by decide)
  exact ⟨resp, hA, hB⟩
